import Mathlib

/-!
Verification of the `ngrxPush` pipe (src/modules/component/src/push/push.pipe.ts)
against its design specification.

The repository ships only the adapter (`PushPipe`): its `renderedValue` field,
the two `NextObserver`s that write it, `transform` and `ngOnDestroy`.  The
engine it delegates to (`createCdAware` / `createRender`, i.e. the spec's
SourceSwitcher and RenderScheduler) is imported from a module that is not part
of this repository, so those operations are modelled from the spec (each such
definition says so in its doc comment).  Everything is single-threaded: the
system is embedded as pure state-transition functions, with ghost counters for
the externally observable side effects (render requests, error reports,
engine-entry calls).
-/

/-- JavaScript runtime values as far as the pipe observes them: the pipe
stores and compares values with strict equality, so a small closed universe
with decidable equality suffices.  `undef` is JavaScript `undefined` and
`null` is JavaScript `null`; they are distinct values. -/
inductive JSVal where
  | undef
  | null
  | num (n : Int)
  | str (s : String)
  deriving DecidableEq, Repr

/-- The argument of `transform` / `setSource`: `null`, `undefined`, or a
subscribable source.  Per spec §4.1 step 4 a deferred-value producer and a
static value are normalized into a uniform emission stream, so a single
`obs` constructor (identified by `id` for instance identity and
subscription matching) covers all subscribable kinds; its emissions are
delivered afterwards as `SourceEvent`s. -/
inductive PotentialObservable where
  | null
  | undef
  | obs (id : Nat)
  deriving DecidableEq, Repr

/-- An event delivered by the active source: a value emission, a terminal
error, or normal completion. -/
inductive SourceEvent where
  | next (v : JSVal)
  | error (e : JSVal)
  | complete
  deriving DecidableEq, Repr

/-- Modelled from the spec: state of the engine (`createCdAware`'s
SourceSwitcher) that the adapter delegates to, which is not part of this
repository's sources.  `visible` is the spec's VisibleValue as the engine's
distinct-filter tracks it, with `none` as the `unset` sentinel (spec §3);
`activeSub` identifies the at-most-one ActiveSubscription; `disposed` is set
by teardown.  `entryCalls`, `lastSupplied`, `renderRequests` and
`errorReports` are ghost instrumentation counting, respectively, calls into
the engine entry point `nextPotentialObservable`, the most recently supplied
source, issued render requests, and ErrorSink notifications. -/
structure EngineState where
  visible : Option JSVal
  activeSub : Option Nat
  disposed : Bool
  entryCalls : Nat
  lastSupplied : Option PotentialObservable
  renderRequests : Nat
  errorReports : Nat
  deriving DecidableEq, Repr

/-- The whole pipe: the adapter's `renderedValue` field (from
push.pipe.ts line 59, a plain mutable field that is `undefined` until an
observer writes it) together with the engine state it is wired to. -/
structure PushPipeState where
  renderedValue : JSVal
  engine : EngineState
  deriving DecidableEq, Repr

/-- The pipe as freshly constructed: `renderedValue` is uninitialized, i.e.
JavaScript `undefined`; no subscription, no events yet. -/
def pipeInitial : PushPipeState :=
  { renderedValue := .undef
    engine :=
      { visible := none, activeSub := none, disposed := false,
        entryCalls := 0, lastSupplied := none,
        renderRequests := 0, errorReports := 0 } }

namespace PushPipe

/-- Source: `resetContextObserver` (push.pipe.ts lines 62-64):
`next: () => (this.renderedValue = undefined)`. -/
def resetContextObserverNext (s : PushPipeState) : PushPipeState :=
  { s with renderedValue := .undef }

/-- Source: `updateViewContextObserver` (push.pipe.ts lines 65-67):
`next: (value) => (this.renderedValue = value)`. -/
def updateViewContextObserverNext (v : JSVal) (s : PushPipeState) :
    PushPipeState :=
  { s with renderedValue := v }

/-- Modelled from the spec: the engine's `setSource` (spec §4.1; realized by
`createCdAware`, which is not in this repository's sources).
Steps, in order: (1) release any ActiveSubscription; (2) synchronously emit
the reset event downstream — VisibleValue becomes the `unset` sentinel and
the adapter's `resetContextObserver` runs; (3) if the source is null or
undefined stop here with no subscription; (4) otherwise attach to the
normalized stream, producing the new ActiveSubscription.  Emissions are
delivered later via `processEvent`, never inside `setSource`.  Per spec §4.1
`dispose()`, every operation after disposal is a no-op. -/
def setSource (p : PotentialObservable) (s : PushPipeState) : PushPipeState :=
  if s.engine.disposed then s
  else
    let s₁ := resetContextObserverNext s
    let e₁ := { s₁.engine with activeSub := none, visible := none }
    match p with
    | .null => { s₁ with engine := e₁ }
    | .undef => { s₁ with engine := e₁ }
    | .obs id => { s₁ with engine := { e₁ with activeSub := some id } }

/-- The engine entry point the adapter calls (`cdAware.nextPotentialObservable`).
Modelled from the spec: the binding layer's supplied source is handed to
`setSource` (spec §4.1 records no identity short-circuit inside the engine's
source-accepting operation).  The ghost fields record that the call reached
the engine and which source was supplied. -/
def nextPotentialObservable (p : PotentialObservable) (s : PushPipeState) :
    PushPipeState :=
  let s₁ := { s with engine :=
    { s.engine with entryCalls := s.engine.entryCalls + 1,
                    lastSupplied := some p } }
  setSource p s₁

/-- Modelled from the spec: delivery of one event from the source attached as
subscription `id` (spec §4.1 steps 5-7 and §5).  A stale or post-disposal
event is discarded.  A `next v` strictly equal to the current VisibleValue is
suppressed with no render request; otherwise VisibleValue becomes `v` (the
adapter's `updateViewContextObserver` runs) and one render request is issued.
An error is forwarded to the ErrorSink and releases the subscription, leaving
VisibleValue at its last good value; completion just releases the
subscription. -/
def processEvent (id : Nat) (ev : SourceEvent) (s : PushPipeState) :
    PushPipeState :=
  if s.engine.disposed then s
  else if s.engine.activeSub ≠ some id then s
  else
    match ev with
    | .next v =>
        if s.engine.visible = some v then s
        else
          let s₁ := updateViewContextObserverNext v s
          { s₁ with engine :=
            { s₁.engine with visible := some v,
                             renderRequests := s₁.engine.renderRequests + 1 } }
    | .error _ =>
        { s with engine :=
          { s.engine with errorReports := s.engine.errorReports + 1,
                          activeSub := none } }
    | .complete =>
        { s with engine := { s.engine with activeSub := none } }

/-- Deliver a list of events from subscription `id`, in order. -/
def processEvents (id : Nat) (evs : List SourceEvent) (s : PushPipeState) :
    PushPipeState :=
  evs.foldl (fun t ev => processEvent id ev t) s

/-- Source: `transform` (push.pipe.ts lines 86-91): unconditionally hands the
argument to `this.cdAware.nextPotentialObservable` and returns
`this.renderedValue`.  The pair is (returned value, state after the call). -/
def transform (p : PotentialObservable) (s : PushPipeState) :
    JSVal × PushPipeState :=
  let s₁ := nextPotentialObservable p s
  (s₁.renderedValue, s₁)

/-- Source: `ngOnDestroy` (push.pipe.ts lines 93-95):
`this.subscription.unsubscribe()`
tears down the engine subscription.  Modelled from the spec for the engine
side (spec §4.1 `dispose()`): any ActiveSubscription is released and the
engine is marked disposed, making subsequent operations no-ops. -/
def ngOnDestroy (s : PushPipeState) : PushPipeState :=
  { s with engine := { s.engine with activeSub := none, disposed := true } }

end PushPipe

/-- Modelled from the spec: state of the RenderScheduler (spec §4.2, realized
by `createRender`, which is not in this repository's sources).  `pending` is
the PendingRenderFlag; `scheduledOnNextCycle` records that a deferred
`refreshOnNextCycle` is queued for the end of the current synchronous window;
the two counters count executions of the two refresh strategies. -/
structure SchedulerState where
  pending : Bool
  scheduledOnNextCycle : Bool
  refreshNowCalls : Nat
  refreshOnNextCycleRuns : Nat
  deriving DecidableEq, Repr

/-- A scheduler with no request pending and no refresh executed yet. -/
def schedulerInitial : SchedulerState :=
  { pending := false, scheduledOnNextCycle := false,
    refreshNowCalls := 0, refreshOnNextCycleRuns := 0 }

namespace RenderScheduler

/-- Modelled from the spec: `requestRender()` (spec §4.2).  If the
PendingRenderFlag is already set, do nothing.  Otherwise set it and either
defer `refreshOnNextCycle` to the end of the current synchronous window
(cooperative scheduler present, `coop = true`) or run `refreshNow`
synchronously and clear the flag immediately (`coop = false`). -/
def requestRender (coop : Bool) (s : SchedulerState) : SchedulerState :=
  if s.pending then s
  else if coop then
    { s with pending := true, scheduledOnNextCycle := true }
  else
    { s with pending := false, refreshNowCalls := s.refreshNowCalls + 1 }

/-- Iterated render requests: `requestRender` called `n` times within one
synchronous window. -/
def requestN (coop : Bool) : Nat → SchedulerState → SchedulerState
  | 0, s => s
  | n + 1, s => requestN coop n (requestRender coop s)

/-- Modelled from the spec: the end of the current synchronous execution
window — a queued `refreshOnNextCycle` (if any) runs once and clears the
PendingRenderFlag (spec §4.2 state machine, Pending → Idle). -/
def endWindow (s : SchedulerState) : SchedulerState :=
  if s.scheduledOnNextCycle then
    { s with pending := false, scheduledOnNextCycle := false,
             refreshOnNextCycleRuns := s.refreshOnNextCycleRuns + 1 }
  else s

end RenderScheduler

/-- Count of emissions in `vs` that pass the distinct filter when the
current VisibleValue is `cur` (`none` = unset sentinel): the first element
differing from the running VisibleValue counts, an element equal to it is
suppressed. -/
def countNewFrom (cur : Option JSVal) : List JSVal → Nat
  | [] => 0
  | v :: t => (if cur = some v then 0 else 1) + countNewFrom (some v) t

/-- Number of maximal runs of equal consecutive values in an emission
sequence processed from the unset sentinel. -/
def countRuns (vs : List JSVal) : Nat :=
  countNewFrom none vs

/-- The VisibleValue left behind after processing the emissions `vs` starting
from VisibleValue `cur`. -/
def lastVisible (cur : Option JSVal) : List JSVal → Option JSVal
  | [] => cur
  | v :: t => lastVisible (some v) t

/-- Example state: a fresh pipe whose `transform` was handed the stream
source with identity 1 — attached, nothing emitted yet. -/
def exampleAttached : PushPipeState :=
  PushPipe.nextPotentialObservable (.obs 1) pipeInitial

/-- Example state: `exampleAttached` after its source emitted the value 5. -/
def exampleAfterValue : PushPipeState :=
  PushPipe.processEvent 1 (.next (.num 5)) exampleAttached

/-- The spec's §8 error scenario up to the failure: the source attached as
subscription `id` emits `v` and then errors with `e`. -/
def afterErrorScenario (id : Nat) (v e : JSVal) (s : PushPipeState) :
    PushPipeState :=
  PushPipe.processEvents id [.next v, .error e] s

/-- The spec's §8 error scenario continued: after the failure, a healthy
source with identity `id2` is supplied and emits `v2`. -/
def afterRecovery (id id2 : Nat) (v e v2 : JSVal) (s : PushPipeState) :
    PushPipeState :=
  PushPipe.processEvent id2 (.next v2)
    (PushPipe.nextPotentialObservable (.obs id2) (afterErrorScenario id v e s))

/-! ## Theorems -/

/-- C1, counterexample.  The claim asserts that after a reset, the stored
VisibleValue is distinct from every valid emitted value, so that a source
emitting `undefined` leaves a state distinguishable from "nothing emitted yet
since source reset".  This is false in the code: the reset observer and the
update observer at `undefined` perform the identical write
(`this.renderedValue = undefined`), so a fresh reset with nothing emitted and
a processed emission of `undefined` leave the same `renderedValue`, and
`transform` returns the same value in both states. -/
theorem C1_counterexample :
    PushPipe.updateViewContextObserverNext .undef pipeInitial
        = PushPipe.resetContextObserverNext pipeInitial ∧
    (PushPipe.processEvent 1 (.next .undef) exampleAttached).renderedValue
        = exampleAttached.renderedValue ∧
    exampleAttached.renderedValue = .undef := by
  refine ⟨rfl, ?_, rfl⟩
  rfl

/-- C1, amended.  The reset observer stores the JavaScript value `undefined`
in `renderedValue` — exactly the value the update observer stores for an
emission of `undefined` — so the two observer writes coincide at `undefined`
and the post-reset state is not distinguishable through `renderedValue` from
the post-`undefined`-emission state; the unset sentinel is not distinct from
every valid emitted value at the adapter level. -/
theorem C1_reset_write_equals_undefined_write (s : PushPipeState) :
    PushPipe.updateViewContextObserverNext .undef s
        = PushPipe.resetContextObserverNext s ∧
    (PushPipe.resetContextObserverNext s).renderedValue = .undef := by
  exact ⟨rfl, rfl⟩

/-- C2, code bug.  The declared overload `transform(potentialObservable:
null): null` promises that `transform(null)` returns `null`, but the
implementation returns `this.renderedValue`, which the reset observer set to
`undefined`: on a fresh pipe `transform(null)` evaluates to `undefined`, and
`undefined ≠ null`.  (The `transform(undefined) = undefined` half of the
overloads does hold, as the last conjunct shows.) -/
theorem C2_transform_null_returns_undefined :
    (PushPipe.transform .null pipeInitial).1 = .undef ∧
    JSVal.undef ≠ JSVal.null ∧
    (PushPipe.transform .undef pipeInitial).1 = .undef := by
  refine ⟨rfl, ?_, rfl⟩
  decide

/-- C3, counterexample.  The claim says `transform` calls the engine entry
point (`nextPotentialObservable`) only when the supplied source differs by
identity from the previously supplied one, and that supplying the same
instance again does not reach the engine.  False: after a first
`transform` with the source of identity 7 (so the previously supplied source
is that very instance), a second `transform` with the same instance still
reaches the engine — the engine-entry call count goes from 1 to 2. -/
theorem C3_counterexample :
    (PushPipe.transform (.obs 7) pipeInitial).2.engine.lastSupplied
        = some (.obs 7) ∧
    (PushPipe.transform (.obs 7) pipeInitial).2.engine.entryCalls = 1 ∧
    (PushPipe.transform (.obs 7)
        (PushPipe.transform (.obs 7) pipeInitial).2).2.engine.entryCalls
        = 2 := by
  refine ⟨rfl, rfl, rfl⟩

/-- C3, amended.  `transform` calls `this.cdAware.nextPotentialObservable`
unconditionally, exactly once per call, whether or not the supplied source is
identical to the previously supplied one: the adapter contains no identity
short-circuit, so any identity-based deduplication happens inside the engine,
not in the adapter. -/
theorem C3_transform_always_calls_engine (p : PotentialObservable)
    (s : PushPipeState) :
    (PushPipe.transform p s).2.engine.entryCalls = s.engine.entryCalls + 1 ∧
    (PushPipe.transform p s).2.engine.lastSupplied = some p := by
  unfold PushPipe.transform PushPipe.nextPotentialObservable PushPipe.setSource
  dsimp only
  split
  · exact ⟨rfl, rfl⟩
  · cases p <;> exact ⟨rfl, rfl⟩

/-- C10.  Frame property of the adapter: `transform` itself never writes
`renderedValue` — its resulting state is exactly the state
`nextPotentialObservable` leaves behind (whose only `renderedValue` writes go
through the two observers), and the value it returns is exactly that state's
`renderedValue`; on a freshly constructed pipe `renderedValue` is `undefined`
and `transform` returns `undefined` whatever the argument. -/
theorem C10_transform_frame (p : PotentialObservable) (s : PushPipeState) :
    (PushPipe.transform p s).2 = PushPipe.nextPotentialObservable p s ∧
    (PushPipe.transform p s).1
        = (PushPipe.nextPotentialObservable p s).renderedValue ∧
    pipeInitial.renderedValue = .undef ∧
    (PushPipe.transform p pipeInitial).1 = .undef := by
  refine ⟨rfl, rfl, rfl, ?_⟩
  cases p <;> rfl

/-- C9.  Disposal: `ngOnDestroy` releases the active subscription, and every
operation after disposal is a no-op rather than a fault: a delivered event is
discarded outright, and a post-dispose `transform` creates no subscription,
issues no render request, and leaves `renderedValue`, the VisibleValue and
the error-report count untouched, returning the existing `renderedValue`. -/
theorem C9_dispose_noop (s : PushPipeState) (p : PotentialObservable)
    (id : Nat) (ev : SourceEvent) :
    (PushPipe.ngOnDestroy s).engine.activeSub = none ∧
    PushPipe.processEvent id ev (PushPipe.ngOnDestroy s)
        = PushPipe.ngOnDestroy s ∧
    (PushPipe.transform p (PushPipe.ngOnDestroy s)).1 = s.renderedValue ∧
    (PushPipe.transform p (PushPipe.ngOnDestroy s)).2.renderedValue
        = s.renderedValue ∧
    (PushPipe.transform p (PushPipe.ngOnDestroy s)).2.engine.activeSub
        = none ∧
    (PushPipe.transform p (PushPipe.ngOnDestroy s)).2.engine.renderRequests
        = s.engine.renderRequests ∧
    (PushPipe.transform p (PushPipe.ngOnDestroy s)).2.engine.visible
        = s.engine.visible ∧
    (PushPipe.transform p (PushPipe.ngOnDestroy s)).2.engine.errorReports
        = s.engine.errorReports := by
  refine ⟨rfl, ?_, ?_, ?_, ?_, ?_, ?_, ?_⟩ <;>
    simp [PushPipe.ngOnDestroy, PushPipe.processEvent, PushPipe.transform,
      PushPipe.nextPotentialObservable, PushPipe.setSource]

/-- C4.  For every source handed to a live engine, immediately after
`setSource` returns — emissions are only ever delivered afterwards — the
VisibleValue reads as the unset sentinel (`visible = none`, and the adapter's
`renderedValue`, reset through `resetContextObserver`, is `undefined`), no
matter what the previous source had produced; for a subscribable source the
new subscription is already attached at that point, so the reset happened
synchronously before attaching.  The same holds through the adapter's
`transform`. -/
theorem C4_reset_before_attach (p : PotentialObservable) (s : PushPipeState)
    (hd : s.engine.disposed = false) :
    (PushPipe.setSource p s).engine.visible = none ∧
    (PushPipe.setSource p s).renderedValue = .undef ∧
    (PushPipe.transform p s).2.engine.visible = none ∧
    (PushPipe.transform p s).2.renderedValue = .undef ∧
    (∀ i, p = .obs i → (PushPipe.setSource p s).engine.activeSub = some i) := by
  cases p <;>
    simp [PushPipe.setSource, PushPipe.transform,
      PushPipe.nextPotentialObservable, PushPipe.resetContextObserverNext, hd]

/-- C4, witness: applied to a state whose previous source had produced the
real value 5 and to the fresh source of identity 2. -/
theorem C4_witness :
    (PushPipe.setSource (.obs 2) exampleAfterValue).engine.visible = none ∧
    (PushPipe.setSource (.obs 2) exampleAfterValue).renderedValue = .undef ∧
    (PushPipe.transform (.obs 2) exampleAfterValue).2.engine.visible = none ∧
    (PushPipe.transform (.obs 2) exampleAfterValue).2.renderedValue
        = .undef ∧
    (∀ i, PotentialObservable.obs 2 = .obs i →
      (PushPipe.setSource (.obs 2) exampleAfterValue).engine.activeSub
          = some i) :=
  C4_reset_before_attach (.obs 2) exampleAfterValue (by decide)

/-- Helper: one accepted (distinct) emission on a live subscription — field
effects of `processEvent` for a `next v` that differs from the current
VisibleValue. -/
theorem processEvent_next_accepted (id : Nat) (v : JSVal)
    (s : PushPipeState) (hd : s.engine.disposed = false)
    (ha : s.engine.activeSub = some id)
    (hv : ¬ s.engine.visible = some v) :
    (PushPipe.processEvent id (.next v) s).renderedValue = v ∧
    (PushPipe.processEvent id (.next v) s).engine.disposed = false ∧
    (PushPipe.processEvent id (.next v) s).engine.activeSub = some id ∧
    (PushPipe.processEvent id (.next v) s).engine.visible = some v ∧
    (PushPipe.processEvent id (.next v) s).engine.renderRequests
        = s.engine.renderRequests + 1 ∧
    (PushPipe.processEvent id (.next v) s).engine.errorReports
        = s.engine.errorReports := by
  refine ⟨?_, ?_, ?_, ?_, ?_, ?_⟩ <;>
    simp [PushPipe.processEvent, hd, ha, hv,
      PushPipe.updateViewContextObserverNext]

/-- Helper: delivering a run of `next` events to a live subscription
preserves liveness, leaves the VisibleValue at `lastVisible` of the run, and
issues exactly `countNewFrom` render requests. -/
theorem processNexts_spec (id : Nat) (vs : List JSVal) :
    ∀ s : PushPipeState, s.engine.disposed = false →
      s.engine.activeSub = some id →
      (PushPipe.processEvents id (vs.map .next) s).engine.disposed = false ∧
      (PushPipe.processEvents id (vs.map .next) s).engine.activeSub
          = some id ∧
      (PushPipe.processEvents id (vs.map .next) s).engine.visible
          = lastVisible s.engine.visible vs ∧
      (PushPipe.processEvents id (vs.map .next) s).engine.renderRequests
          = s.engine.renderRequests + countNewFrom s.engine.visible vs := by
  induction vs with
  | nil =>
      intro s hd ha
      exact ⟨hd, ha, rfl, rfl⟩
  | cons v t ih =>
      intro s hd ha
      have hstep : PushPipe.processEvents id ((v :: t).map .next) s
          = PushPipe.processEvents id (t.map .next)
              (PushPipe.processEvent id (.next v) s) := rfl
      by_cases hv : s.engine.visible = some v
      · have hfix : PushPipe.processEvent id (.next v) s = s := by
          simp [PushPipe.processEvent, hd, ha, hv]
        rw [hstep, hfix]
        have h := ih s hd ha
        refine ⟨h.1, h.2.1, ?_, ?_⟩
        · rw [h.2.2.1, lastVisible, hv]
        · rw [h.2.2.2, countNewFrom, hv]
          simp
      · obtain ⟨-, h1, h2, h3, h4, -⟩ :=
          processEvent_next_accepted id v s hd ha hv
        rw [hstep]
        have h := ih _ h1 h2
        refine ⟨h.1, h.2.1, ?_, ?_⟩
        · rw [h.2.2.1, h3]
          rfl
        · rw [h.2.2.2, h3, h4, countNewFrom]
          simp [hv]
          omega

/-- Helper: starting from the kept element `w`, the distinct filter accepts
one emission per element the destuttering keeps beyond `w` itself. -/
theorem countNewFrom_destutter (t : List JSVal) :
    ∀ w : JSVal, countNewFrom (some w) t + 1
        = (List.destutter' (· ≠ ·) w t).length := by
  induction t with
  | nil =>
      intro w
      simp [countNewFrom, List.destutter']
  | cons b l ih =>
      intro w
      by_cases hw : w = b
      · subst hw
        simp [countNewFrom, List.destutter', ih w]
      · have hne : ¬ (some w = some b) := by simpa using hw
        simp only [countNewFrom, List.destutter', hne, if_neg, hw, ne_eq,
          not_false_iff, if_true, if_pos, List.length_cons]
        rw [← ih b]
        omega

/-- Helper: `countRuns` is the number of maximal runs of equal consecutive
values, i.e. the length of the not-equal destuttering of the sequence. -/
theorem countRuns_eq_destutter_length (vs : List JSVal) :
    countRuns vs = (vs.destutter (· ≠ ·)).length := by
  cases vs with
  | nil => rfl
  | cons v t =>
      have h := countNewFrom_destutter t v
      simp only [countRuns, countNewFrom, List.destutter]
      simp only [show ¬ ((none : Option JSVal) = some v) by simp, if_neg,
        not_false_iff]
      omega

/-- C5.  Distinct-until-changed: for every sequence of values emitted by one
live source instance starting from the unset sentinel, exactly one render
request is issued per maximal run of equal consecutive values
(`countRuns`, shown equal to the length of the not-equal destuttering of the
sequence); and an emission strictly equal to the current VisibleValue is a
complete no-op — no render request, no change to VisibleValue or to any
other state. -/
theorem C5_distinct_until_changed :
    (∀ (id : Nat) (vs : List JSVal) (s : PushPipeState),
        s.engine.disposed = false → s.engine.activeSub = some id →
        s.engine.visible = none →
        (PushPipe.processEvents id (vs.map .next) s).engine.renderRequests
            = s.engine.renderRequests + countRuns vs) ∧
    (∀ (id : Nat) (v : JSVal) (s : PushPipeState),
        s.engine.visible = some v →
        PushPipe.processEvent id (.next v) s = s) ∧
    (∀ vs : List JSVal, countRuns vs = (vs.destutter (· ≠ ·)).length) := by
  refine ⟨?_, ?_, countRuns_eq_destutter_length⟩
  · intro id vs s hd ha hvis
    have h := (processNexts_spec id vs s hd ha).2.2.2
    rw [h, hvis, countRuns]
  · intro id v s hv
    unfold PushPipe.processEvent
    split
    · rfl
    · split
      · rfl
      · simp [hv]

/-- C5, witness: the spec's own example — the live example pipe processing
the emissions [1, 1, 2, 2, 2, 3] issues exactly 3 render requests. -/
theorem C5_witness :
    (PushPipe.processEvents 1
        ([JSVal.num 1, .num 1, .num 2, .num 2, .num 2, .num 3].map .next)
        exampleAttached).engine.renderRequests = 3 := by
  have h := C5_distinct_until_changed.1 1
    [JSVal.num 1, .num 1, .num 2, .num 2, .num 2, .num 3]
    exampleAttached (by decide) (by decide) (by decide)
  rw [h]
  decide

/-- Helper: field effects of an error event on a live subscription — the
ErrorSink is notified once, the subscription is released, and the rendered
value, VisibleValue and render-request count are untouched. -/
theorem processEvent_error_live (id : Nat) (e : JSVal) (s : PushPipeState)
    (hd : s.engine.disposed = false) (ha : s.engine.activeSub = some id) :
    (PushPipe.processEvent id (.error e) s).renderedValue
        = s.renderedValue ∧
    (PushPipe.processEvent id (.error e) s).engine.visible
        = s.engine.visible ∧
    (PushPipe.processEvent id (.error e) s).engine.errorReports
        = s.engine.errorReports + 1 ∧
    (PushPipe.processEvent id (.error e) s).engine.activeSub = none ∧
    (PushPipe.processEvent id (.error e) s).engine.disposed = false ∧
    (PushPipe.processEvent id (.error e) s).engine.renderRequests
        = s.engine.renderRequests := by
  refine ⟨?_, ?_, ?_, ?_, ?_, ?_⟩ <;> simp [PushPipe.processEvent, hd, ha]

/-- Helper: field effects of handing a live engine a subscribable source —
reset to the unset sentinel, fresh subscription attached, counters for
renders and errors untouched. -/
theorem nextPotentialObservable_obs_live (i : Nat) (s : PushPipeState)
    (hd : s.engine.disposed = false) :
    (PushPipe.nextPotentialObservable (.obs i) s).renderedValue = .undef ∧
    (PushPipe.nextPotentialObservable (.obs i) s).engine.visible = none ∧
    (PushPipe.nextPotentialObservable (.obs i) s).engine.activeSub
        = some i ∧
    (PushPipe.nextPotentialObservable (.obs i) s).engine.disposed = false ∧
    (PushPipe.nextPotentialObservable (.obs i) s).engine.errorReports
        = s.engine.errorReports ∧
    (PushPipe.nextPotentialObservable (.obs i) s).engine.renderRequests
        = s.engine.renderRequests := by
  refine ⟨?_, ?_, ?_, ?_, ?_, ?_⟩ <;>
    simp [PushPipe.nextPotentialObservable, PushPipe.setSource, hd,
      PushPipe.resetContextObserverNext]

/-- C8.  Error atomicity and recovery: when the live source emits a fresh
value `v` and then errors, the error is forwarded to the ErrorSink exactly
once, the VisibleValue (and the adapter's `renderedValue`) stays at the last
good value `v` with no reset and no rethrow, and a subsequent `setSource`
with a healthy source succeeds: its first emission `v2` is rendered (one new
render request), with the error-report count still at exactly one more than
before the failure. -/
theorem C8_error_recovery (s : PushPipeState) (id id2 : Nat)
    (v e v2 : JSVal) (hd : s.engine.disposed = false)
    (ha : s.engine.activeSub = some id)
    (hv : ¬ s.engine.visible = some v) :
    (afterErrorScenario id v e s).renderedValue = v ∧
    (afterErrorScenario id v e s).engine.visible = some v ∧
    (afterErrorScenario id v e s).engine.errorReports
        = s.engine.errorReports + 1 ∧
    (afterRecovery id id2 v e v2 s).renderedValue = v2 ∧
    (afterRecovery id id2 v e v2 s).engine.renderRequests
        = (afterErrorScenario id v e s).engine.renderRequests + 1 ∧
    (afterRecovery id id2 v e v2 s).engine.errorReports
        = s.engine.errorReports + 1 := by
  obtain ⟨a0, a1, a2, a3, a4, a5⟩ :=
    processEvent_next_accepted id v s hd ha hv
  obtain ⟨b0, b1, b2, b3, b4, b5⟩ :=
    processEvent_error_live id e (PushPipe.processEvent id (.next v) s) a1 a2
  have hscen : afterErrorScenario id v e s
      = PushPipe.processEvent id (.error e)
          (PushPipe.processEvent id (.next v) s) := rfl
  obtain ⟨c0, c1, c2, c3, c4, c5⟩ :=
    nextPotentialObservable_obs_live id2 (afterErrorScenario id v e s)
      (hscen ▸ b4)
  have hvz : ¬ (PushPipe.nextPotentialObservable (.obs id2)
      (afterErrorScenario id v e s)).engine.visible = some v2 := by
    rw [c1]
    simp
  obtain ⟨d0, d1, d2, d3, d4, d5⟩ :=
    processEvent_next_accepted id2 v2
      (PushPipe.nextPotentialObservable (.obs id2)
        (afterErrorScenario id v e s)) c3 c2 hvz
  have hrec : afterRecovery id id2 v e v2 s
      = PushPipe.processEvent id2 (.next v2)
          (PushPipe.nextPotentialObservable (.obs id2)
            (afterErrorScenario id v e s)) := rfl
  refine ⟨?_, ?_, ?_, ?_, ?_, ?_⟩
  · rw [hscen, b0, a0]
  · rw [hscen, b1, a3]
  · rw [hscen, b2, a5]
  · rw [hrec, d0]
  · rw [hrec, d4, c5]
  · rw [hrec, d5, c4, hscen, b2, a5]

/-- C8, witness: the spec's §8 scenario — the live example pipe's source
emits 10 then errors; the rendered value remains 10, exactly one error is
reported, and after supplying the healthy source of identity 2 its emission
20 is rendered. -/
theorem C8_witness :
    (afterErrorScenario 1 (.num 10) (.str "boom")
        exampleAttached).renderedValue = .num 10 ∧
    (afterErrorScenario 1 (.num 10) (.str "boom")
        exampleAttached).engine.errorReports = 1 ∧
    (afterRecovery 1 2 (.num 10) (.str "boom") (.num 20)
        exampleAttached).renderedValue = .num 20 ∧
    (afterRecovery 1 2 (.num 10) (.str "boom") (.num 20)
        exampleAttached).engine.errorReports = 1 := by
  have h := C8_error_recovery exampleAttached 1 2 (.num 10) (.str "boom")
    (.num 20) (by decide) (by decide) (by decide)
  refine ⟨h.1, ?_, h.2.2.2.1, ?_⟩
  · rw [h.2.2.1]
    decide
  · rw [h.2.2.2.2.2]
    decide

/-- Helper: once the PendingRenderFlag is set, any further render requests in
the window are no-ops (self-loop of the Pending state). -/
theorem requestN_pending_fixed (m : Nat) (s : SchedulerState)
    (h : s.pending = true) :
    RenderScheduler.requestN true m s = s := by
  induction m with
  | zero => rfl
  | succ m ih =>
      show RenderScheduler.requestN true m (RenderScheduler.requestRender true s) = s
      rw [RenderScheduler.requestRender, if_pos h, ih]

/-- C6.  Coalescing with a cooperative scheduler present: starting from an
idle scheduler, however many render requests (at least one) arrive within one
synchronous execution window, no refresh runs during the window itself and
the deferred refresh (`refreshOnNextCycle`) executes exactly once at the end
of the window, which also clears the PendingRenderFlag; `refreshNow` is never
used in this mode. -/
theorem C6_coalescing (s : SchedulerState) (n : Nat)
    (hp : s.pending = false) (_hs : s.scheduledOnNextCycle = false)
    (hn : 1 ≤ n) :
    (RenderScheduler.endWindow
        (RenderScheduler.requestN true n s)).refreshOnNextCycleRuns
        = s.refreshOnNextCycleRuns + 1 ∧
    (RenderScheduler.requestN true n s).refreshOnNextCycleRuns
        = s.refreshOnNextCycleRuns ∧
    (RenderScheduler.endWindow (RenderScheduler.requestN true n s)).pending
        = false ∧
    (RenderScheduler.requestN true n s).refreshNowCalls
        = s.refreshNowCalls := by
  obtain ⟨m, rfl⟩ : ∃ m, n = m + 1 := by
    cases n with
    | zero => omega
    | succ m => exact ⟨m, rfl⟩
  have hone : RenderScheduler.requestRender true s
      = { s with pending := true, scheduledOnNextCycle := true } := by
    rw [RenderScheduler.requestRender, if_pos rfl, if_neg (by simp [hp])]
  have hrest : RenderScheduler.requestN true (m + 1) s
      = { s with pending := true, scheduledOnNextCycle := true } := by
    show RenderScheduler.requestN true m (RenderScheduler.requestRender true s) = _
    rw [hone, requestN_pending_fixed m _ rfl]
  rw [hrest]
  refine ⟨?_, rfl, ?_, rfl⟩ <;>
    simp [RenderScheduler.endWindow]

/-- C6, witness: five render requests in one window with the cooperative
scheduler present yield exactly one deferred refresh. -/
theorem C6_witness :
    (RenderScheduler.endWindow
        (RenderScheduler.requestN true 5 schedulerInitial)).refreshOnNextCycleRuns
        = 1 ∧
    (RenderScheduler.requestN true 5 schedulerInitial).refreshNowCalls
        = 0 := by
  have h := C6_coalescing schedulerInitial 5 rfl rfl (by decide)
  exact ⟨h.1, h.2.2.2⟩

/-- C7.  Without a cooperative scheduler there is no coalescing: starting
with the PendingRenderFlag clear, every one of the `n` render requests in a
synchronous window triggers `refreshNow` synchronously (`n` calls in total),
the flag is clear again immediately after every call, and the deferred
strategy is never invoked. -/
theorem C7_no_coalescing (s : SchedulerState) (n : Nat)
    (hp : s.pending = false) :
    (RenderScheduler.requestN false n s).refreshNowCalls
        = s.refreshNowCalls + n ∧
    (RenderScheduler.requestN false n s).pending = false ∧
    (RenderScheduler.requestN false n s).refreshOnNextCycleRuns
        = s.refreshOnNextCycleRuns ∧
    (RenderScheduler.requestN false n s).scheduledOnNextCycle
        = s.scheduledOnNextCycle := by
  induction n generalizing s with
  | zero => exact ⟨rfl, hp, rfl, rfl⟩
  | succ m ih =>
      have hone : RenderScheduler.requestRender false s
          = { s with pending := false,
                     refreshNowCalls := s.refreshNowCalls + 1 } := by
        rw [RenderScheduler.requestRender, if_neg (by simp [hp]),
          if_neg (by simp)]
      have hstep : RenderScheduler.requestN false (m + 1) s
          = RenderScheduler.requestN false m
              (RenderScheduler.requestRender false s) := rfl
      rw [hstep, hone]
      obtain ⟨i1, i2, i3, i4⟩ := ih
        { s with pending := false,
                 refreshNowCalls := s.refreshNowCalls + 1 } rfl
      refine ⟨?_, i2, i3, i4⟩
      rw [i1]
      dsimp only
      omega

/-- C7, witness: three render requests on an idle scheduler without a
cooperative host trigger three immediate refreshes and leave the flag
clear. -/
theorem C7_witness :
    (RenderScheduler.requestN false 3 schedulerInitial).refreshNowCalls
        = 3 ∧
    (RenderScheduler.requestN false 3 schedulerInitial).pending = false := by
  have h := C7_no_coalescing schedulerInitial 3 rfl
  exact ⟨h.1, h.2.1⟩
